import Mathlib

/-!
Verification development for the Faster R-CNN orchestration core
(`frcnn/network.py`): anchor-grid generation, forward-pass bundle assembly,
backbone selection, and weighted multi-task loss composition.
-/

set_option autoImplicit false

namespace Frcnn

/-- One row (x1, y1, x2, y2) of an anchors tensor. -/
structure Box where
  x1 : Int
  y1 : Int
  x2 : Int
  y2 : Int
deriving DecidableEq, Repr

/-- Componentwise translation of a box by (sx, sy, sx, sy), as performed by the
broadcast `anchor_reference.reshape((1, A, 4)) + shifts` in
`FasterRCNN._generate_anchors`. -/
def shiftBox (b : Box) (s : Int × Int) : Box :=
  ⟨b.x1 + s.1, b.y1 + s.2, b.x2 + s.1, b.y2 + s.2⟩

/-- Embedding of `tf.range n` as a list of integers `[0, 1, ..., n-1]`. -/
def tfRange (n : Nat) : List Int :=
  (List.range n).map Int.ofNat

/-- Modelled from the spec: `utils.ops.meshgrid` is imported by
`frcnn/network.py` but its source is not under `src/`.  Per the shift
convention (`shift_x`/`shift_y` enumerate the cell origins over the whole
W x H grid), it is the standard xy-indexed meshgrid: both outputs have shape
(len y, len x); the first repeats `x` as every row, the second repeats each
entry of `y` across its row. -/
def meshgrid (x y : List Int) : List (List Int) × List (List Int) :=
  (y.map (fun _ => x), y.map (fun yi => x.map (fun _ => yi)))

/-- The flattened sequence of (shift_x, shift_y) pairs built inside
`FasterRCNN._generate_anchors`: `tf.range(grid_width) * stride` and
`tf.range(grid_height) * stride`, meshgrid, reshape to rank 1, then the
stack/transpose packaging into rows (shift_x, shift_y, shift_x, shift_y) --
of which we keep the two distinct components. -/
def anchorShifts (H W S : Nat) : List (Int × Int) :=
  let shift_x := (tfRange W).map (fun v => v * (S : Int))
  let shift_y := (tfRange H).map (fun v => v * (S : Int))
  let g := meshgrid shift_x shift_y
  g.1.flatten.zip g.2.flatten

/-- Embedding of `FasterRCNN._generate_anchors`: the broadcast
`anchor_reference.reshape((1, A, 4)) + transpose(reshape(shifts, (1, HW, 4)), (1, 0, 2))`
produces a (HW, A, 4) tensor whose row [p, a] is reference anchor `a` shifted
by grid point `p`; the final `reshape((A * HW, 4))` flattens it row-major,
i.e. grid-point-major. -/
def generate_anchors (ref : List Box) (H W S : Nat) : List Box :=
  (anchorShifts H W S).flatMap (fun s => ref.map (fun b => shiftBox b s))

example : anchorShifts 2 3 16 =
    [(0, 0), (16, 0), (32, 0), (0, 16), (16, 16), (32, 16)] := by decide

example : generate_anchors [⟨-8, -8, 8, 8⟩] 1 2 16 =
    [⟨-8, -8, 8, 8⟩, ⟨8, -8, 24, 8⟩] := by decide

theorem zip_map_const (x : List Int) (y : Int) :
    x.zip (x.map (fun _ => y)) = x.map (fun xj => (xj, y)) := by
  induction x with
  | nil => rfl
  | cons a as ih => simpa using ih

theorem zip_flatten_const (x : List Int) (ys : List Int) :
    ((ys.map (fun _ => x)).flatten).zip
      ((ys.map (fun yi => x.map (fun _ => yi))).flatten) =
      ys.flatMap (fun yi => x.map (fun xj => (xj, yi))) := by
  induction ys with
  | nil => simp
  | cons y ys ih =>
      simp only [List.map_cons, List.flatten_cons, List.flatMap_cons]
      rw [List.zip_append (by simp)]
      rw [ih, zip_map_const]

theorem anchorShifts_eq (H W S : Nat) :
    anchorShifts H W S =
      (List.range H).flatMap (fun (i : Nat) =>
        (List.range W).map (fun (j : Nat) => ((j : Int) * (S : Int), (i : Int) * (S : Int)))) := by
  unfold anchorShifts meshgrid tfRange
  rw [zip_flatten_const]
  simp only [List.flatMap_map, List.map_map]
  rfl

theorem flatMap_length_const {α β : Type} (l : List α) (f : α → List β) (k : Nat)
    (hk : ∀ x, (f x).length = k) : (l.flatMap f).length = l.length * k := by
  induction l with
  | nil => simp
  | cons a t ih => simp [List.flatMap_cons, hk, ih, Nat.succ_mul, Nat.add_comm]

theorem anchorShifts_length (H W S : Nat) :
    (anchorShifts H W S).length = H * W := by
  rw [anchorShifts_eq, flatMap_length_const _ _ W (fun i => by simp)]
  simp

theorem mem_anchorShifts_iff (H W S : Nat) (s : Int × Int) :
    s ∈ anchorShifts H W S ↔
      ∃ i, i < H ∧ ∃ j, j < W ∧ s = (((j : Nat) : Int) * (S : Int), ((i : Nat) : Int) * (S : Int)) := by
  rw [anchorShifts_eq]
  simp only [List.mem_flatMap, List.mem_map, List.mem_range]
  constructor
  · rintro ⟨i, hi, j, hj, rfl⟩
    exact ⟨i, hi, j, hj, rfl⟩
  · rintro ⟨i, hi, j, hj, rfl⟩
    exact ⟨i, hi, j, hj, rfl⟩

theorem flatMap_getElem_const {α β : Type} (l : List α) (f : α → List β) (k p a : Nat)
    (hk : ∀ x, (f x).length = k) (ha : a < k) (x : α) (hx : l[p]? = some x) :
    (l.flatMap f)[p * k + a]? = (f x)[a]? := by
  induction l generalizing p with
  | nil => simp at hx
  | cons y t ih =>
      cases p with
      | zero =>
          simp only [List.getElem?_cons_zero, Option.some.injEq] at hx
          subst hx
          simp only [List.flatMap_cons, Nat.zero_mul, Nat.zero_add]
          rw [List.getElem?_append_left (by rw [hk]; exact ha)]
      | succ q =>
          simp only [List.getElem?_cons_succ] at hx
          simp only [List.flatMap_cons]
          rw [List.getElem?_append_right (by
            rw [hk y]
            exact le_trans (Nat.le_mul_of_pos_left k (Nat.succ_pos q))
              (Nat.le_add_right _ a))]
          rw [hk y]
          have harith : (q + 1) * k + a - k = q * k + a := by
            rw [Nat.succ_mul]; omega
          rw [harith]
          exact ih q hx

/-- C1: every box produced by `FasterRCNN._generate_anchors` for a feature map
of spatial shape (H, W) and stride S is exactly one reference anchor translated
componentwise by (shift_x, shift_y, shift_x, shift_y) with shift_x = j*S for
some j < W and shift_y = i*S for some i < H, and conversely every such
translation occurs; in particular no clipping to image bounds is applied. -/
theorem anchors_are_translated_references (ref : List Box) (H W S : Nat) :
    (∀ b ∈ generate_anchors ref H W S, ∃ a ∈ ref, ∃ i, i < H ∧ ∃ j, j < W ∧
        b = shiftBox a ((j : Int) * (S : Int), (i : Int) * (S : Int))) ∧
    (∀ a ∈ ref, ∀ i, i < H → ∀ j, j < W →
        shiftBox a ((j : Int) * (S : Int), (i : Int) * (S : Int)) ∈
          generate_anchors ref H W S) := by
  constructor
  · intro b hb
    rw [generate_anchors, List.mem_flatMap] at hb
    obtain ⟨s, hs, hb⟩ := hb
    rw [List.mem_map] at hb
    obtain ⟨a, ha, rfl⟩ := hb
    rw [mem_anchorShifts_iff] at hs
    obtain ⟨i, hi, j, hj, rfl⟩ := hs
    exact ⟨a, ha, i, hi, j, hj, rfl⟩
  · intro a ha i hi j hj
    rw [generate_anchors, List.mem_flatMap]
    exact ⟨((j : Int) * (S : Int), (i : Int) * (S : Int)),
      (mem_anchorShifts_iff H W S _).mpr ⟨i, hi, j, hj, rfl⟩,
      List.mem_map_of_mem _ ha⟩

theorem anchors_are_translated_references_witness :
    (⟨8, -8, 24, 8⟩ : Box) ∈ generate_anchors [⟨-8, -8, 8, 8⟩] 1 2 16 := by
  have h := (anchors_are_translated_references [⟨-8, -8, 8, 8⟩] 1 2 16).2
    ⟨-8, -8, 8, 8⟩ (by decide) 0 (by decide) 1 (by decide)
  simpa [shiftBox] using h

/-- C2: `_generate_anchors` on shape (H, W) with stride S yields exactly
H * W * num_reference_anchors boxes; for H, W > 0 the applied shifts attain
(0, 0), attain ((W-1)*S, (H-1)*S), and always lie between those extremes
componentwise. -/
theorem anchors_count_and_shift_extremes (ref : List Box) (H W S : Nat)
    (hH : 0 < H) (hW : 0 < W) :
    (generate_anchors ref H W S).length = H * W * ref.length ∧
    ((0 : Int), (0 : Int)) ∈ anchorShifts H W S ∧
    (((W - 1 : Nat) : Int) * (S : Int), ((H - 1 : Nat) : Int) * (S : Int)) ∈
      anchorShifts H W S ∧
    (∀ s ∈ anchorShifts H W S,
      0 ≤ s.1 ∧ s.1 ≤ ((W - 1 : Nat) : Int) * (S : Int) ∧
      0 ≤ s.2 ∧ s.2 ≤ ((H - 1 : Nat) : Int) * (S : Int)) := by
  refine ⟨?_, ?_, ?_, ?_⟩
  · rw [generate_anchors,
      flatMap_length_const _ _ ref.length (fun s => by simp),
      anchorShifts_length]
  · exact (mem_anchorShifts_iff H W S _).mpr ⟨0, hH, 0, hW, by norm_num⟩
  · exact (mem_anchorShifts_iff H W S _).mpr ⟨H - 1, by omega, W - 1, by omega, rfl⟩
  · intro s hs
    rw [mem_anchorShifts_iff] at hs
    obtain ⟨i, hi, j, hj, rfl⟩ := hs
    refine ⟨by positivity, ?_, by positivity, ?_⟩
    · exact mul_le_mul_of_nonneg_right (by exact_mod_cast (by omega : j ≤ W - 1))
        (by positivity)
    · exact mul_le_mul_of_nonneg_right (by exact_mod_cast (by omega : i ≤ H - 1))
        (by positivity)

theorem anchors_count_and_shift_extremes_witness :
    (generate_anchors [⟨-8, -8, 8, 8⟩] 2 3 16).length = 2 * 3 * 1 ∧
    ((0 : Int), (0 : Int)) ∈ anchorShifts 2 3 16 ∧
    (((3 - 1 : Nat) : Int) * ((16 : Nat) : Int),
      ((2 - 1 : Nat) : Int) * ((16 : Nat) : Int)) ∈ anchorShifts 2 3 16 :=
  ⟨(anchors_count_and_shift_extremes [⟨-8, -8, 8, 8⟩] 2 3 16
      (by decide) (by decide)).1,
   (anchors_count_and_shift_extremes [⟨-8, -8, 8, 8⟩] 2 3 16
      (by decide) (by decide)).2.1,
   (anchors_count_and_shift_extremes [⟨-8, -8, 8, 8⟩] 2 3 16
      (by decide) (by decide)).2.2.1⟩

/-- C3: the flat anchor list is grid-cell-major: the entry at flat index
p * num_reference_anchors + a is reference anchor a translated by the shift of
grid point p, so for a fixed grid cell all reference-anchor variants are
contiguous. -/
theorem anchors_grid_cell_major (ref : List Box) (H W S p a : Nat)
    (s : Int × Int) (b : Box) (ha : a < ref.length)
    (hs : (anchorShifts H W S)[p]? = some s) (hb : ref[a]? = some b) :
    (generate_anchors ref H W S)[p * ref.length + a]? = some (shiftBox b s) := by
  rw [generate_anchors,
    flatMap_getElem_const _ _ ref.length p a (fun t => by simp) ha s hs]
  rw [List.getElem?_map, hb]
  rfl

theorem anchors_grid_cell_major_witness :
    (generate_anchors [⟨0, 0, 1, 1⟩, ⟨-2, -2, 2, 2⟩] 2 2 16)[3 * 2 + 1]? =
      some (shiftBox ⟨-2, -2, 2, 2⟩ (16, 16)) :=
  anchors_grid_cell_major [⟨0, 0, 1, 1⟩, ⟨-2, -2, 2, 2⟩] 2 2 16 3 1
    (16, 16) ⟨-2, -2, 2, 2⟩ (by decide) (by decide) (by decide)

/-- C8: anchor generation is deterministic -- identical configuration
(reference anchors and stride) and identical feature-map shape yield identical
output; the embedded function reads no state beyond its arguments. -/
theorem anchors_deterministic (r1 r2 : List Box) (H1 W1 S1 H2 W2 S2 : Nat)
    (h : r1 = r2 ∧ H1 = H2 ∧ W1 = W2 ∧ S1 = S2) :
    generate_anchors r1 H1 W1 S1 = generate_anchors r2 H2 W2 S2 := by
  obtain ⟨h1, h2, h3, h4⟩ := h
  rw [h1, h2, h3, h4]

theorem anchors_deterministic_witness :
    generate_anchors [⟨-8, -8, 8, 8⟩] 2 3 16 =
      generate_anchors [⟨-8, -8, 8, 8⟩] 2 3 16 :=
  anchors_deterministic [⟨-8, -8, 8, 8⟩] [⟨-8, -8, 8, 8⟩] 2 3 16 2 3 16
    ⟨rfl, rfl, rfl, rfl⟩

/-! ## Python dict operations used by `_build` and `loss`

Prediction and loss dicts are embedded as association lists in insertion
order: reading a key returns the first binding, writing an existing key
replaces its value in place, and writing a new key appends it. -/

/-- Reading `d[k]`, as an `Option` (Python raises `KeyError` when absent). -/
def dictGet {α : Type} (d : List (String × α)) (k : String) : Option α :=
  d.lookup k

/-- Writing `d[k] = v`: replace in place when the key exists, else append. -/
def dictSet {α : Type} (d : List (String × α)) (k : String) (v : α) :
    List (String × α) :=
  if (d.lookup k).isSome then
    d.map (fun p => if p.1 = k then (k, v) else p)
  else
    d ++ [(k, v)]

/-- Updating `d[k] = f(d[k])`, failing (KeyError) when the key is absent. -/
def dictUpdate (d : List (String × Rat)) (k : String) (f : Rat → Rat) :
    Option (List (String × Rat)) :=
  match d.lookup k with
  | none => none
  | some v => some (dictSet d k (f v))

/-! ## The orchestrator -/

/-- The per-term loss weights fixed in `FasterRCNN.__init__`. -/
def rpn_cls_loss_weight : Rat := 1

/-- See `rpn_cls_loss_weight`. -/
def rpn_reg_loss_weight : Rat := 2

/-- See `rpn_cls_loss_weight`. -/
def rcnn_cls_loss_weight : Rat := 1

/-- See `rpn_cls_loss_weight`. -/
def rcnn_reg_loss_weight : Rat := 2

/-- The two backbone classes appearing in `PRETRAINED_MODULES`. -/
inductive PretrainedClass where
  | VGG
  | ResNetV2
deriving DecidableEq, Repr

/-- The `PRETRAINED_MODULES` table of `frcnn/network.py`. -/
def PRETRAINED_MODULES : List (String × PretrainedClass) :=
  [("vgg", PretrainedClass.VGG),
   ("resnet", PretrainedClass.ResNetV2),
   ("resnetv2", PretrainedClass.ResNetV2)]

/-- The configuration-derived fields of `FasterRCNN.__init__` that the
orchestration logic reads. -/
structure FasterRCNNState where
  debug : Bool
  with_rcnn : Bool
  anchor_reference : List Box
  anchor_stride : Nat
deriving DecidableEq, Repr

/-- The backbone validation of `FasterRCNN.__init__`: raise `ValueError` when
`pretrained_type` is not a key of `PRETRAINED_MODULES`, otherwise record the
selected class.  The check runs during construction, before any forward
computation exists. -/
def fasterRCNN_init (debug with_rcnn : Bool) (anchor_reference : List Box)
    (anchor_stride : Nat) (pretrained_type : String) :
    Except String (FasterRCNNState × PretrainedClass) :=
  match PRETRAINED_MODULES.lookup pretrained_type with
  | none => Except.error "Invalid type for pretrained module"
  | some c =>
      Except.ok (⟨debug, with_rcnn, anchor_reference, anchor_stride⟩, c)

/-- A value stored in the prediction bundle: an opaque tensor of the ambient
type `T`, an image shape, a generated anchor list, a collaborator output dict,
or an itemized loss dict. -/
inductive PredValue (T : Type) where
  | tensor : T → PredValue T
  | shapeV : Nat × Nat → PredValue T
  | anchorsV : List Box → PredValue T
  | subdict : List (String × T) → PredValue T
  | lossdictV : List (String × Rat) → PredValue T
deriving DecidableEq

/-- The external collaborators consumed by `FasterRCNN._build`, as abstract
functions over an opaque tensor type `T` (spec section 6: backbone, RPN,
ROI pooling and RCNN are black boxes with documented interfaces).
`shapeHW` is `tf.shape(x)[1:3]` as (height, width). -/
structure Stages (T : Type) where
  shapeHW : T → Nat × Nat
  pretrained : T → Bool → List (String × T)
  rpn : T → T → Nat × Nat → List Box → Bool → List (String × T)
  roi_pool : T → T → Nat × Nat → List (String × T)
  rcnn : T → T → T → Nat × Nat → List (String × T)

/-- Embedding of `FasterRCNN._build`: run the backbone, generate the anchor grid from the
feature-map shape, run the RPN, and assemble the prediction dict; run ROI
pooling and the RCNN only when `with_rcnn`; add raw intermediates only in
debug mode.  Failed dict reads on collaborator outputs (Python `KeyError`)
surface as `none`. -/
def build {T : Type} (m : FasterRCNNState) (st : Stages T) (image gt_boxes : T)
    (is_training : Bool) : Option (List (String × PredValue T)) :=
  let image_shape := st.shapeHW image
  let pretrained_dict := st.pretrained image is_training
  match dictGet pretrained_dict "net" with
  | none => none
  | some pretrained_feature_map =>
      let fs := st.shapeHW pretrained_feature_map
      let all_anchors :=
        generate_anchors m.anchor_reference fs.1 fs.2 m.anchor_stride
      let rpn_prediction :=
        st.rpn pretrained_feature_map gt_boxes image_shape all_anchors
          is_training
      let d0 : List (String × PredValue T) :=
        [("rpn_prediction", PredValue.subdict rpn_prediction)]
      let d1 :=
        if m.debug then
          dictSet (dictSet (dictSet (dictSet (dictSet d0
            "image" (PredValue.tensor image))
            "image_shape" (PredValue.shapeV image_shape))
            "all_anchors" (PredValue.anchorsV all_anchors))
            "gt_boxes" (PredValue.tensor gt_boxes))
            "pretrained_dict" (PredValue.subdict pretrained_dict)
        else d0
      if m.with_rcnn then
        match dictGet rpn_prediction "proposals" with
        | none => none
        | some proposals =>
            let roi_prediction :=
              st.roi_pool proposals pretrained_feature_map image_shape
            match dictGet roi_prediction "roi_pool" with
            | none => none
            | some roi_pool_out =>
                let classification_prediction :=
                  st.rcnn roi_pool_out proposals gt_boxes image_shape
                let d2 := dictSet d1 "classification_prediction"
                  (PredValue.subdict classification_prediction)
                let d3 :=
                  if m.debug then
                    dictSet d2 "roi_prediction"
                      (PredValue.subdict roi_prediction)
                  else d2
                some d3
      else
        some d1

/-- The `.loss` methods of the RPN and RCNN collaborators: each maps its own
prediction dict to a named loss dict. -/
structure LossStages (T : Type) where
  rpn_loss : List (String × T) → List (String × Rat)
  rcnn_loss : List (String × T) → List (String × Rat)

/-- What `FasterRCNN.loss` produces: the returned scalar `total_loss`, the
monitoring quantities `no_reg_loss` (sum of the weighted task terms added via
`tf.losses.add_loss`) and `regularization_loss`, and the mutated prediction
dict. -/
structure LossResult (T : Type) where
  total_loss : Rat
  no_reg_loss : Rat
  regularization_loss : Rat
  prediction_dict : List (String × PredValue T)
deriving DecidableEq

/-- The in-place reweighting `d[k] = d[k] * w` applied to both loss dicts. -/
def weightLossDict (d : List (String × Rat)) (cls_key reg_key : String)
    (cls_weight reg_weight : Rat) : Option (List (String × Rat)) :=
  match dictUpdate d cls_key (fun v => v * cls_weight) with
  | none => none
  | some d1 => dictUpdate d1 reg_key (fun v => v * reg_weight)

/-- Embedding of `FasterRCNN.loss`: compute the RPN loss dict, scale its cls/reg entries by
the fixed weights, store it under `rpn_loss_dict`; when `with_rcnn`, do the
same for the RCNN loss dict under `rcnn_loss_dict`; add every itemized term
via `tf.losses.add_loss` and return the total (task terms plus
regularization). -/
def lossOf {T : Type} (m : FasterRCNNState) (ls : LossStages T)
    (regularization_loss : Rat)
    (prediction_dict : List (String × PredValue T)) : Option (LossResult T) :=
  match dictGet prediction_dict "rpn_prediction" with
  | some (PredValue.subdict rpn_pred) =>
      match weightLossDict (ls.rpn_loss rpn_pred) "rpn_cls_loss" "rpn_reg_loss"
          rpn_cls_loss_weight rpn_reg_loss_weight with
      | none => none
      | some rpn_loss_dict =>
          let pd1 := dictSet prediction_dict "rpn_loss_dict"
            (PredValue.lossdictV rpn_loss_dict)
          if m.with_rcnn then
            match dictGet pd1 "classification_prediction" with
            | some (PredValue.subdict cls_pred) =>
                match weightLossDict (ls.rcnn_loss cls_pred) "rcnn_cls_loss"
                    "rcnn_reg_loss" rcnn_cls_loss_weight rcnn_reg_loss_weight with
                | none => none
                | some rcnn_loss_dict =>
                    let pd2 := dictSet pd1 "rcnn_loss_dict"
                      (PredValue.lossdictV rcnn_loss_dict)
                    let no_reg :=
                      (((rpn_loss_dict ++ rcnn_loss_dict).map Prod.snd)).sum
                    some ⟨no_reg + regularization_loss, no_reg,
                      regularization_loss, pd2⟩
            | _ => none
          else
            let no_reg := ((rpn_loss_dict.map Prod.snd)).sum
            some ⟨no_reg + regularization_loss, no_reg,
              regularization_loss, pd1⟩
  | _ => none

/-- A configuration with the classification head enabled (used to instantiate
loss theorems at concrete inputs). -/
def withRcnnState : FasterRCNNState := ⟨false, true, [], 16⟩

/-- A configuration with the classification head disabled. -/
def rpnOnlyState : FasterRCNNState := ⟨false, false, [], 16⟩

/-- Collaborator loss stubs returning the standard two-entry loss dicts with
the given raw (pre-weighting) values. -/
def constLossStages (rc rr cc cr : Rat) : LossStages Unit :=
  ⟨fun _ => [("rpn_cls_loss", rc), ("rpn_reg_loss", rr)],
   fun _ => [("rcnn_cls_loss", cc), ("rcnn_reg_loss", cr)]⟩

/-- A minimal prediction bundle carrying both collaborator prediction dicts. -/
def predDict0 : List (String × PredValue Unit) :=
  [("rpn_prediction", PredValue.subdict []),
   ("classification_prediction", PredValue.subdict [])]

/-- C4: the RPN and RCNN classification loss terms carry weight 1 and the
regression terms weight 2; the weighted task terms are summed, so raw losses
(rc, rr, cc, cr) give task loss rc*1 + rr*2 + cc*1 + cr*2, which is 6 for
all-ones inputs. -/
theorem loss_weighted_composition (rc rr cc cr reg : Rat) :
    rpn_cls_loss_weight = 1 ∧ rpn_reg_loss_weight = 2 ∧
    rcnn_cls_loss_weight = 1 ∧ rcnn_reg_loss_weight = 2 ∧
    (lossOf withRcnnState (constLossStages rc rr cc cr) reg predDict0).map
        LossResult.no_reg_loss =
      some (rc * rpn_cls_loss_weight + rr * rpn_reg_loss_weight +
        cc * rcnn_cls_loss_weight + cr * rcnn_reg_loss_weight) ∧
    (lossOf withRcnnState (constLossStages 1 1 1 1) 0 predDict0).map
        LossResult.no_reg_loss = some 6 := by
    refine ⟨rfl, rfl, rfl, rfl, ?_, ?_⟩
    · simp [lossOf, weightLossDict, dictUpdate, dictGet, dictSet,
        constLossStages, predDict0, withRcnnState, List.lookup_cons,
        rpn_cls_loss_weight, rpn_reg_loss_weight, rcnn_cls_loss_weight,
        rcnn_reg_loss_weight]
      ring
    · simp [lossOf, weightLossDict, dictUpdate, dictGet, dictSet,
        constLossStages, predDict0, withRcnnState, List.lookup_cons,
        rpn_cls_loss_weight, rpn_reg_loss_weight, rcnn_cls_loss_weight,
        rcnn_reg_loss_weight]
      norm_num

/-- C5: construction errors exactly when the requested backbone identifier is
not one of vgg, resnet, resnetv2; the check is part of `__init__` itself. -/
theorem init_error_iff_unknown_backbone (debug with_rcnn : Bool)
    (ref : List Box) (S : Nat) (t : String) :
    (∃ e, fasterRCNN_init debug with_rcnn ref S t = Except.error e) ↔
      ¬ (t = "vgg" ∨ t = "resnet" ∨ t = "resnetv2") := by
  by_cases h1 : t = "vgg"
  · subst h1
    simp [fasterRCNN_init, PRETRAINED_MODULES, List.lookup_cons]
  · by_cases h2 : t = "resnet"
    · subst h2
      simp [fasterRCNN_init, PRETRAINED_MODULES, List.lookup_cons]
    · by_cases h3 : t = "resnetv2"
      · subst h3
        simp [fasterRCNN_init, PRETRAINED_MODULES, List.lookup_cons]
      · simp [fasterRCNN_init, PRETRAINED_MODULES, List.lookup_cons,
          h1, h2, h3,
          show (t == "vgg") = false by simp [h1],
          show (t == "resnet") = false by simp [h2],
          show (t == "resnetv2") = false by simp [h3]]

/-- C10: the identifiers resnet and resnetv2 both select `ResNetV2`, so
construction with either yields the same backbone class; only vgg selects a
different class. -/
theorem resnet_and_resnetv2_same_backbone :
    PRETRAINED_MODULES.lookup "resnet" = some PretrainedClass.ResNetV2 ∧
    PRETRAINED_MODULES.lookup "resnetv2" = some PretrainedClass.ResNetV2 ∧
    PRETRAINED_MODULES.lookup "vgg" = some PretrainedClass.VGG ∧
    PretrainedClass.VGG ≠ PretrainedClass.ResNetV2 ∧
    fasterRCNN_init false true [] 16 "resnet" =
      Except.ok (⟨false, true, [], 16⟩, PretrainedClass.ResNetV2) ∧
    fasterRCNN_init false true [] 16 "resnetv2" =
      Except.ok (⟨false, true, [], 16⟩, PretrainedClass.ResNetV2) :=
  ⟨rfl, rfl, rfl, by decide, rfl, rfl⟩

theorem lookup_map_replace {α : Type} (d : List (String × α)) (k : String)
    (v : α) :
    (d.map (fun p => if p.1 = k then (k, v) else p)).lookup k =
      (d.lookup k).map (fun _ => v) := by
  induction d with
  | nil => rfl
  | cons p t ih =>
      obtain ⟨pk, pv⟩ := p
      by_cases hp : pk = k
      · subst hp
        simp [List.lookup_cons]
      · have hbeq : (k == pk) = false := by simp [Ne.symm hp]
        simp [List.lookup_cons, hp, hbeq, ih]

theorem lookup_map_replace_ne {α : Type} (d : List (String × α)) (k a : String)
    (v : α) (h : a ≠ k) :
    (d.map (fun p => if p.1 = k then (k, v) else p)).lookup a = d.lookup a := by
  induction d with
  | nil => rfl
  | cons p t ih =>
      obtain ⟨pk, pv⟩ := p
      by_cases hp : pk = k
      · subst hp
        simp [List.lookup_cons, show (a == pk) = false by simp [h], ih]
      · by_cases hap : a = pk
        · subst hap
          simp [List.lookup_cons, hp]
        · simp [List.lookup_cons, hp,
            show (a == pk) = false by simp [hap], ih]

theorem lookup_append_ne {α : Type} (d : List (String × α)) (k a : String)
    (v : α) (h : a ≠ k) :
    (d ++ [(k, v)]).lookup a = d.lookup a := by
  induction d with
  | nil => simp [List.lookup_cons, show (a == k) = false by simp [h]]
  | cons p t ih =>
      obtain ⟨pk, pv⟩ := p
      by_cases hap : a = pk
      · subst hap
        simp [List.lookup_cons]
      · simp [List.lookup_cons, show (a == pk) = false by simp [hap], ih]

theorem lookup_append_self {α : Type} (d : List (String × α)) (k : String)
    (v : α) (h : d.lookup k = none) :
    (d ++ [(k, v)]).lookup k = some v := by
  induction d with
  | nil => simp [List.lookup_cons]
  | cons p t ih =>
      obtain ⟨pk, pv⟩ := p
      by_cases hkp : k = pk
      · subst hkp
        simp [List.lookup_cons] at h
      · have hbeq : (k == pk) = false := by simp [hkp]
        simp only [List.cons_append, List.lookup_cons, hbeq] at h ⊢
        exact ih h

theorem lookup_dictSet_self {α : Type} (d : List (String × α)) (k : String)
    (v : α) : (dictSet d k v).lookup k = some v := by
  unfold dictSet
  by_cases h : (d.lookup k).isSome
  · rw [if_pos h, lookup_map_replace]
    obtain ⟨w, hw⟩ := Option.isSome_iff_exists.mp h
    rw [hw]
    rfl
  · rw [if_neg h]
    exact lookup_append_self d k v (Option.not_isSome_iff_eq_none.mp h)

theorem lookup_dictSet_ne {α : Type} (d : List (String × α)) (k a : String)
    (v : α) (h : a ≠ k) : (dictSet d k v).lookup a = d.lookup a := by
  unfold dictSet
  by_cases hs : (d.lookup k).isSome
  · rw [if_pos hs, lookup_map_replace_ne d k a v h]
  · rw [if_neg hs, lookup_append_ne d k a v h]

theorem dictUpdate_eq_some (d : List (String × Rat)) (k : String)
    (f : Rat → Rat) (w : List (String × Rat)) (h : dictUpdate d k f = some w) :
    ∃ v, d.lookup k = some v ∧ w = dictSet d k (f v) := by
  unfold dictUpdate at h
  cases hl : d.lookup k with
  | none => rw [hl] at h; cases h
  | some v =>
      rw [hl] at h
      injection h with h2
      exact ⟨v, rfl, h2.symm⟩

theorem weightLossDict_lookup (d : List (String × Rat)) (ck rk : String)
    (cw rw : Rat) (w : List (String × Rat)) (hne : ck ≠ rk)
    (hw : weightLossDict d ck rk cw rw = some w) :
    (∃ vc, d.lookup ck = some vc ∧ w.lookup ck = some (vc * cw)) ∧
    (∃ vr, d.lookup rk = some vr ∧ w.lookup rk = some (vr * rw)) := by
  unfold weightLossDict at hw
  cases h1 : dictUpdate d ck (fun v => v * cw) with
  | none => rw [h1] at hw; cases hw
  | some d1 =>
      rw [h1] at hw
      obtain ⟨vc, hvc, rfl⟩ := dictUpdate_eq_some d ck _ d1 h1
      obtain ⟨vr, hvr, rfl⟩ := dictUpdate_eq_some _ rk _ w hw
      refine ⟨⟨vc, hvc, ?_⟩, ⟨vr, ?_, ?_⟩⟩
      · rw [lookup_dictSet_ne _ _ _ _ hne, lookup_dictSet_self]
      · rw [lookup_dictSet_ne _ _ _ _ (Ne.symm hne)] at hvr
        exact hvr
      · rw [lookup_dictSet_self]

theorem build_shape {T : Type} (m : FasterRCNNState) (st : Stages T)
    (image gt_boxes : T) (tr : Bool) (d : List (String × PredValue T))
    (hb : build m st image gt_boxes tr = some d) :
    d.map Prod.fst =
      ["rpn_prediction"] ++
      (if m.debug = true then
        ["image", "image_shape", "all_anchors", "gt_boxes", "pretrained_dict"]
       else []) ++
      (if m.with_rcnn = true then
        ["classification_prediction"] ++
          (if m.debug = true then ["roi_prediction"] else [])
       else []) := by
  simp only [build] at hb
  rcases hnet : dictGet (st.pretrained image tr) "net" with _ | fm <;>
    rw [hnet] at hb
  · exact Option.noConfusion hb
  · cases hd : m.debug <;> cases hw : m.with_rcnn <;>
      simp only [hd, hw] at hb ⊢ <;>
      simp [dictSet, dictGet] at hb ⊢
    · subst hb
      simp
    · split at hb
      · exact Option.noConfusion hb
      · split at hb
        · exact Option.noConfusion hb
        · simp only [Option.some.injEq] at hb
          subst hb
          simp
    · subst hb
      simp
    · split at hb
      · exact Option.noConfusion hb
      · split at hb
        · exact Option.noConfusion hb
        · simp only [Option.some.injEq] at hb
          subst hb
          simp

/-- Collaborator stubs over a unit tensor type, used to instantiate the
forward-pass theorems at concrete inputs. -/
def demoStages : Stages Unit :=
  ⟨fun _ => (2, 3),
   fun _ _ => [("net", ())],
   fun _ _ _ _ _ => [("proposals", ())],
   fun _ _ _ => [("roi_pool", ())],
   fun _ _ _ _ => [("scores", ())]⟩

/-- The bundle `build` produces from `demoStages` with the classification head
enabled and debug off. -/
def demoBundle : List (String × PredValue Unit) :=
  [("rpn_prediction", PredValue.subdict [("proposals", ())]),
   ("classification_prediction", PredValue.subdict [("scores", ())])]

/-- The bundle `build` produces from `demoStages` with the classification head
disabled and debug off. -/
def demoBundleRpn : List (String × PredValue Unit) :=
  [("rpn_prediction", PredValue.subdict [("proposals", ())])]

/-- C7: the prediction bundle always exposes the RPN output; it exposes the
classification output exactly when the classification stage ran, and the raw
intermediates (image, image shape, anchor grid, ground truth, backbone
outputs) exactly in debug mode. -/
theorem bundle_key_presence {T : Type} (m : FasterRCNNState) (st : Stages T)
    (image gt_boxes : T) (tr : Bool) (d : List (String × PredValue T))
    (hb : build m st image gt_boxes tr = some d) :
    "rpn_prediction" ∈ d.map Prod.fst ∧
    ("classification_prediction" ∈ d.map Prod.fst ↔ m.with_rcnn = true) ∧
    ("image" ∈ d.map Prod.fst ↔ m.debug = true) ∧
    ("image_shape" ∈ d.map Prod.fst ↔ m.debug = true) ∧
    ("all_anchors" ∈ d.map Prod.fst ↔ m.debug = true) ∧
    ("gt_boxes" ∈ d.map Prod.fst ↔ m.debug = true) ∧
    ("pretrained_dict" ∈ d.map Prod.fst ↔ m.debug = true) := by
  rw [build_shape m st image gt_boxes tr d hb]
  cases hd : m.debug <;> cases hw : m.with_rcnn <;> simp [hd, hw]

theorem bundle_key_presence_witness :
    "rpn_prediction" ∈ demoBundle.map Prod.fst ∧
    ("classification_prediction" ∈ demoBundle.map Prod.fst ↔
      withRcnnState.with_rcnn = true) ∧
    ("image" ∈ demoBundle.map Prod.fst ↔ withRcnnState.debug = true) ∧
    ("image_shape" ∈ demoBundle.map Prod.fst ↔ withRcnnState.debug = true) ∧
    ("all_anchors" ∈ demoBundle.map Prod.fst ↔ withRcnnState.debug = true) ∧
    ("gt_boxes" ∈ demoBundle.map Prod.fst ↔ withRcnnState.debug = true) ∧
    ("pretrained_dict" ∈ demoBundle.map Prod.fst ↔
      withRcnnState.debug = true) :=
  bundle_key_presence withRcnnState demoStages () () true demoBundle rfl

/-- C6: with the classification head disabled, the prediction bundle contains
no classification-related keys, and the loss computation sums only the
(weighted) RPN loss terms. -/
theorem rcnn_disabled_omits_classification {T : Type} (m : FasterRCNNState)
    (st : Stages T) (image gt_boxes : T) (tr : Bool)
    (d : List (String × PredValue T)) (hw : m.with_rcnn = false)
    (hb : build m st image gt_boxes tr = some d) :
    ("classification_prediction" ∉ d.map Prod.fst ∧
     "roi_prediction" ∉ d.map Prod.fst) ∧
    (∀ (ls : LossStages T) (reg : Rat) (pd : List (String × PredValue T))
        (r : LossResult T), lossOf m ls reg pd = some r →
      ∃ rpn_pred w,
        dictGet pd "rpn_prediction" = some (PredValue.subdict rpn_pred) ∧
        weightLossDict (ls.rpn_loss rpn_pred) "rpn_cls_loss" "rpn_reg_loss"
          rpn_cls_loss_weight rpn_reg_loss_weight = some w ∧
        r.no_reg_loss = (w.map Prod.snd).sum ∧
        r.total_loss = (w.map Prod.snd).sum + reg) := by
  constructor
  · refine ⟨?_, ?_⟩ <;> rw [build_shape m st image gt_boxes tr d hb] <;>
      cases hd : m.debug <;> simp [hd, hw]
  · intro ls reg pd r h
    simp only [lossOf] at h
    split at h
    · rename_i rpn_pred heq
      split at h
      · exact Option.noConfusion h
      · rename_i w hwl
        rw [hw] at h
        simp only [Bool.false_eq_true, if_false] at h
        simp only [Option.some.injEq] at h
        subst h
        exact ⟨rpn_pred, w, heq, hwl, rfl, rfl⟩
    · exact Option.noConfusion h

theorem rcnn_disabled_omits_classification_witness :
    "classification_prediction" ∉ demoBundleRpn.map Prod.fst ∧
    "roi_prediction" ∉ demoBundleRpn.map Prod.fst :=
  (rcnn_disabled_omits_classification rpnOnlyState demoStages () () true
    demoBundleRpn rfl rfl).1

/-- C9: `FasterRCNN.loss` returns a single scalar (the weighted task terms
plus regularization) and mutates the bundle by storing the itemized loss dicts
under `rpn_loss_dict` (and `rcnn_loss_dict` when classification ran); every
stored itemized value already carries its per-term weight. -/
theorem loss_entry_point_contract {T : Type} (m : FasterRCNNState)
    (ls : LossStages T) (reg : Rat) (pd : List (String × PredValue T))
    (r : LossResult T) (h : lossOf m ls reg pd = some r) :
    ∃ rpn_pred w,
      dictGet pd "rpn_prediction" = some (PredValue.subdict rpn_pred) ∧
      weightLossDict (ls.rpn_loss rpn_pred) "rpn_cls_loss" "rpn_reg_loss"
        rpn_cls_loss_weight rpn_reg_loss_weight = some w ∧
      dictGet r.prediction_dict "rpn_loss_dict" =
        some (PredValue.lossdictV w) ∧
      (∃ vc, (ls.rpn_loss rpn_pred).lookup "rpn_cls_loss" = some vc ∧
        w.lookup "rpn_cls_loss" = some (vc * rpn_cls_loss_weight)) ∧
      (∃ vr, (ls.rpn_loss rpn_pred).lookup "rpn_reg_loss" = some vr ∧
        w.lookup "rpn_reg_loss" = some (vr * rpn_reg_loss_weight)) ∧
      r.total_loss = r.no_reg_loss + reg ∧
      (m.with_rcnn = true →
        ∃ cls_pred u,
          dictGet pd "classification_prediction" =
            some (PredValue.subdict cls_pred) ∧
          weightLossDict (ls.rcnn_loss cls_pred) "rcnn_cls_loss"
            "rcnn_reg_loss" rcnn_cls_loss_weight rcnn_reg_loss_weight =
            some u ∧
          dictGet r.prediction_dict "rcnn_loss_dict" =
            some (PredValue.lossdictV u) ∧
          (∃ vc, (ls.rcnn_loss cls_pred).lookup "rcnn_cls_loss" = some vc ∧
            u.lookup "rcnn_cls_loss" = some (vc * rcnn_cls_loss_weight)) ∧
          (∃ vr, (ls.rcnn_loss cls_pred).lookup "rcnn_reg_loss" = some vr ∧
            u.lookup "rcnn_reg_loss" = some (vr * rcnn_reg_loss_weight))) := by
  simp only [lossOf] at h
  split at h
  · rename_i rpn_pred heq
    split at h
    · exact Option.noConfusion h
    · rename_i w hwl
      split at h
      · -- with_rcnn = true
        rename_i hrc
        split at h
        · rename_i cls_pred hcq
          split at h
          · exact Option.noConfusion h
          · rename_i u hul
            simp only [Option.some.injEq] at h
            subst h
            refine ⟨rpn_pred, w, heq, hwl, ?_, ?_, ?_, rfl, ?_⟩
            · rw [show dictGet (dictSet (dictSet pd "rpn_loss_dict"
                  (PredValue.lossdictV w)) "rcnn_loss_dict"
                  (PredValue.lossdictV u)) "rpn_loss_dict" =
                  (dictSet (dictSet pd "rpn_loss_dict"
                    (PredValue.lossdictV w)) "rcnn_loss_dict"
                    (PredValue.lossdictV u)).lookup "rpn_loss_dict" from rfl]
              rw [lookup_dictSet_ne _ _ _ _ (by decide), lookup_dictSet_self]
            · exact (weightLossDict_lookup _ _ _ _ _ w (by decide) hwl).1
            · exact (weightLossDict_lookup _ _ _ _ _ w (by decide) hwl).2
            · intro _
              refine ⟨cls_pred, u, ?_, hul, ?_, ?_, ?_⟩
              · rw [show dictGet (dictSet pd "rpn_loss_dict"
                    (PredValue.lossdictV w)) "classification_prediction" =
                    (dictSet pd "rpn_loss_dict"
                      (PredValue.lossdictV w)).lookup
                      "classification_prediction" from rfl,
                  lookup_dictSet_ne _ _ _ _ (by decide)] at hcq
                exact hcq
              · rw [show dictGet (dictSet (dictSet pd "rpn_loss_dict"
                    (PredValue.lossdictV w)) "rcnn_loss_dict"
                    (PredValue.lossdictV u)) "rcnn_loss_dict" =
                    (dictSet (dictSet pd "rpn_loss_dict"
                      (PredValue.lossdictV w)) "rcnn_loss_dict"
                      (PredValue.lossdictV u)).lookup "rcnn_loss_dict"
                    from rfl]
                rw [lookup_dictSet_self]
              · exact (weightLossDict_lookup _ _ _ _ _ u (by decide) hul).1
              · exact (weightLossDict_lookup _ _ _ _ _ u (by decide) hul).2
        · exact Option.noConfusion h
      · -- with_rcnn = false
        rename_i hrc
        simp only [Option.some.injEq] at h
        subst h
        refine ⟨rpn_pred, w, heq, hwl, ?_, ?_, ?_, rfl, ?_⟩
        · rw [show dictGet (dictSet pd "rpn_loss_dict"
              (PredValue.lossdictV w)) "rpn_loss_dict" =
              (dictSet pd "rpn_loss_dict"
                (PredValue.lossdictV w)).lookup "rpn_loss_dict" from rfl]
          rw [lookup_dictSet_self]
        · exact (weightLossDict_lookup _ _ _ _ _ w (by decide) hwl).1
        · exact (weightLossDict_lookup _ _ _ _ _ w (by decide) hwl).2
        · intro hc
          exact absurd hc hrc
  · exact Option.noConfusion h

/-- The result `lossOf` computes from the all-ones collaborator losses with
the classification head enabled and zero regularization. -/
def demoLossResult : LossResult Unit :=
  ⟨6, 6, 0,
   [("rpn_prediction", PredValue.subdict []),
    ("classification_prediction", PredValue.subdict []),
    ("rpn_loss_dict",
      PredValue.lossdictV [("rpn_cls_loss", 1), ("rpn_reg_loss", 2)]),
    ("rcnn_loss_dict",
      PredValue.lossdictV [("rcnn_cls_loss", 1), ("rcnn_reg_loss", 2)])]⟩

theorem loss_entry_point_contract_witness :
    ∃ rpn_pred w,
      dictGet predDict0 "rpn_prediction" = some (PredValue.subdict rpn_pred) ∧
      weightLossDict ((constLossStages 1 1 1 1).rpn_loss rpn_pred)
        "rpn_cls_loss" "rpn_reg_loss" rpn_cls_loss_weight
        rpn_reg_loss_weight = some w ∧
      dictGet demoLossResult.prediction_dict "rpn_loss_dict" =
        some (PredValue.lossdictV w) ∧
      (∃ vc, ((constLossStages 1 1 1 1).rpn_loss rpn_pred).lookup
          "rpn_cls_loss" = some vc ∧
        w.lookup "rpn_cls_loss" = some (vc * rpn_cls_loss_weight)) ∧
      (∃ vr, ((constLossStages 1 1 1 1).rpn_loss rpn_pred).lookup
          "rpn_reg_loss" = some vr ∧
        w.lookup "rpn_reg_loss" = some (vr * rpn_reg_loss_weight)) ∧
      demoLossResult.total_loss = demoLossResult.no_reg_loss + 0 ∧
      (withRcnnState.with_rcnn = true →
        ∃ cls_pred u,
          dictGet predDict0 "classification_prediction" =
            some (PredValue.subdict cls_pred) ∧
          weightLossDict ((constLossStages 1 1 1 1).rcnn_loss cls_pred)
            "rcnn_cls_loss" "rcnn_reg_loss" rcnn_cls_loss_weight
            rcnn_reg_loss_weight = some u ∧
          dictGet demoLossResult.prediction_dict "rcnn_loss_dict" =
            some (PredValue.lossdictV u) ∧
          (∃ vc, ((constLossStages 1 1 1 1).rcnn_loss cls_pred).lookup
              "rcnn_cls_loss" = some vc ∧
            u.lookup "rcnn_cls_loss" = some (vc * rcnn_cls_loss_weight)) ∧
          (∃ vr, ((constLossStages 1 1 1 1).rcnn_loss cls_pred).lookup
              "rcnn_reg_loss" = some vr ∧
            u.lookup "rcnn_reg_loss" = some (vr * rcnn_reg_loss_weight))) :=
  loss_entry_point_contract withRcnnState (constLossStages 1 1 1 1) 0
    predDict0 demoLossResult (by with_unfolding_all rfl)

end Frcnn
